import Mathlib

/-!
Shallow embedding of `src/admin/token_cache.py` (module `admin.token_cache`
of the cruise_admin repository): a three-tier read-through cache for the
Auth0 Management API token.

Modelling choices:
* Timestamps (`time.time()`) are an explicit `now : Int` parameter; the
  Python module samples the clock several times during one call, but every
  claim is about a single instant, so one `now` is threaded through a call.
* The durable Parameter Store is modelled by its observable content
  `Option StoredValue` (`none` = `ParameterNotFound`), plus a per-call
  `readFault : Bool` oracle standing for a non-not-found `ClientError`
  raised by `get_parameter` (permission error, transient fault).
* The Auth0 HTTP POST is an oracle `FetchOutcome`: either the request
  fails (network error, non-2xx via `raise_for_status`, or a body without
  `access_token`) or it succeeds with a token string.
* The `put_parameter` write is a per-call `writeOk : Bool` oracle; when it
  is `false` the `ClientError` is swallowed as in the Python code.
* Python exceptions become `Except TokenError`; uncaught exceptions are
  errors that propagate out of `get_auth0_mgmt_token`.
* `fetchCount` counts actual HTTP POSTs to the token endpoint,
  `readCount` counts `get_parameter` calls, `writeCount` counts
  `put_parameter` attempts; they make "no I/O" claims stateable.
-/

/-- `TOKEN_CACHE_SECONDS = 24 * 60 * 60` from the source. -/
def TOKEN_CACHE_SECONDS : Int := 24 * 60 * 60

/-- `TOKEN_EXPIRY_BUFFER = 300` (5 minutes) from the source. -/
def TOKEN_EXPIRY_BUFFER : Int := 300

/-- Python truthiness of an `Optional[str]`: `None` and `""` are falsy. -/
def pyTruthy : Option String → Bool
  | none => false
  | some s => s ≠ ""

/-- Errors that can escape `get_auth0_mgmt_token`. -/
inductive TokenError
  /-- `RuntimeError` raised by `get_env_or_raise` for a missing env var. -/
  | configError (name : String)
  /-- `json.loads` (or attribute/type) failure on a malformed stored value;
  not a `ClientError`, hence not caught by `_load_token_from_parameter_store`. -/
  | parseError
  /-- `requests` exception, non-2xx status via `raise_for_status`, or
  `KeyError` on a response body without `access_token`. -/
  | issuanceError
  deriving DecidableEq, Repr

/-- Environment variables visible to the module (`os.getenv`);
`none` means unset. `AUTH0_AUDIENCE` has a default and never raises. -/
structure Env where
  AUTH0_DOMAIN : Option String
  AUTH0_CLIENT_ID : Option String
  AUTH0_CLIENT_SECRET : Option String
  AUTH0_AUDIENCE : Option String
  deriving DecidableEq, Repr

/-- Embedding of `get_env_or_raise`: `os.getenv` followed by
`if not val: raise RuntimeError(...)`, so unset and `""` both raise. -/
def get_env_or_raise (val : Option String) (name : String) :
    Except TokenError String :=
  match val with
  | none => .error (.configError name)
  | some v => if v = "" then .error (.configError name) else .ok v

/-- All three required env vars are set and nonempty, i.e. the three
`get_env_or_raise` calls in `_fetch_new_token_from_auth0` all succeed. -/
def envReady (env : Env) : Bool :=
  pyTruthy env.AUTH0_DOMAIN && pyTruthy env.AUTH0_CLIENT_ID &&
    pyTruthy env.AUTH0_CLIENT_SECRET

/-- Content of the Parameter Store value at
`/cruise-admin/prod/auth0-mgmt-token`, as seen by `json.loads`:
either a well-typed JSON object (with optional `token` string field and
optional numeric `expiry` field, `none` = key absent so the Python
`dict.get` default applies), or anything else (invalid JSON, non-object,
wrongly typed fields), on which the uncaught decode/type error fires. -/
inductive StoredValue
  | malformed
  | wellFormed (token : Option String) (expiry : Option Int)
  deriving DecidableEq, Repr

/-- Outcome of the HTTP POST to `https://{domain}/oauth/token`. -/
inductive FetchOutcome
  /-- Network error, non-2xx response, or body missing `access_token`. -/
  | failure
  /-- 2xx response whose JSON body carries this `access_token`. -/
  | success (token : String)
  deriving DecidableEq, Repr

/-- Embedding of `_load_token_from_parameter_store`.
`content` is the stored blob (`none` = `ParameterNotFound`), `readFault`
models a non-not-found `ClientError` from `get_parameter`. Both
`ClientError` branches are caught and yield `None`; a malformed stored
value raises outside the `except ClientError` handler and propagates. -/
def _load_token_from_parameter_store (content : Option StoredValue)
    (readFault : Bool) (now : Int) :
    Except TokenError (Option (String × Int)) :=
  if readFault then
    .ok none
  else
    match content with
    | none => .ok none
    | some .malformed => .error .parseError
    | some (.wellFormed token expiry) =>
      let e := expiry.getD 0
      if pyTruthy token ∧ e > now + TOKEN_EXPIRY_BUFFER then
        .ok (some (token.getD "", e))
      else
        .ok none

/-- Embedding of `_fetch_new_token_from_auth0`. Returns the result plus
the number of HTTP POSTs performed (0 when a config error fires before
the request, 1 once `requests.post` is reached). On success the expiry is
`now + TOKEN_CACHE_SECONDS - TOKEN_EXPIRY_BUFFER`. -/
def _fetch_new_token_from_auth0 (env : Env) (outcome : FetchOutcome)
    (now : Int) : Except TokenError (String × Int) × Nat :=
  match get_env_or_raise env.AUTH0_DOMAIN "AUTH0_DOMAIN" with
  | .error e => (.error e, 0)
  | .ok _ =>
    match get_env_or_raise env.AUTH0_CLIENT_ID "AUTH0_CLIENT_ID" with
    | .error e => (.error e, 0)
    | .ok _ =>
      match get_env_or_raise env.AUTH0_CLIENT_SECRET "AUTH0_CLIENT_SECRET" with
      | .error e => (.error e, 0)
      | .ok _ =>
        match outcome with
        | .failure => (.error .issuanceError, 1)
        | .success token =>
          (.ok (token, now + TOKEN_CACHE_SECONDS - TOKEN_EXPIRY_BUFFER), 1)

/-- Process-wide mutable state of the module plus I/O instrumentation:
`memToken`/`memExpiry` are the globals `_auth0_mgmt_token` and
`_auth0_mgmt_token_expiry`; `store` is the Parameter Store content;
the counters record I/O performed so far. -/
structure CacheState where
  memToken : Option String
  memExpiry : Int
  store : Option StoredValue
  fetchCount : Nat
  readCount : Nat
  writeCount : Nat
  deriving DecidableEq, Repr

/-- Embedding of `_save_token_to_parameter_store`: a `put_parameter`
attempt; on `ClientError` (`writeOk = false`) the error is swallowed and
the store is left unchanged. Never raises. -/
def _save_token_to_parameter_store (st : CacheState) (token : String)
    (expiry : Int) (writeOk : Bool) : CacheState :=
  if writeOk then
    { st with store := some (.wellFormed (some token) (some expiry)),
              writeCount := st.writeCount + 1 }
  else
    { st with writeCount := st.writeCount + 1 }

/-- Embedding of `get_auth0_mgmt_token`. Tier 1: memory hit iff the global
token is truthy and `expiry > now + TOKEN_EXPIRY_BUFFER`. Tier 2: read the
Parameter Store; on an adopted value update the memory globals. Tier 3:
fetch from Auth0, update the memory globals, then best-effort write-back.
Returns the Python return/raise outcome together with the final state. -/
def get_auth0_mgmt_token (st : CacheState) (now : Int) (env : Env)
    (readFault : Bool) (fetch : FetchOutcome) (writeOk : Bool) :
    Except TokenError String × CacheState :=
  if pyTruthy st.memToken ∧ st.memExpiry > now + TOKEN_EXPIRY_BUFFER then
    (.ok (st.memToken.getD ""), st)
  else
    let st₁ : CacheState := { st with readCount := st.readCount + 1 }
    match _load_token_from_parameter_store st.store readFault now with
    | .error e => (.error e, st₁)
    | .ok (some (token, expiry)) =>
      (.ok token, { st₁ with memToken := some token, memExpiry := expiry })
    | .ok none =>
      match _fetch_new_token_from_auth0 env fetch now with
      | (.error e, n) => (.error e, { st₁ with fetchCount := st₁.fetchCount + n })
      | (.ok (token, expiry), n) =>
        let st₂ : CacheState :=
          { st₁ with memToken := some token, memExpiry := expiry,
                     fetchCount := st₁.fetchCount + n }
        (.ok token, _save_token_to_parameter_store st₂ token expiry writeOk)

/-- Fully populated environment, for concrete instances. -/
def envAll : Env :=
  ⟨some "example.auth0.com", some "cid", some "csecret", some "aud"⟩

/-- Environment with every variable unset. -/
def envEmpty : Env := ⟨none, none, none, none⟩

/-- Helper: a missing or empty env var makes `get_env_or_raise` raise the
config error carrying that variable's name. -/
theorem get_env_or_raise_of_missing (val : Option String) (name : String)
    (h : pyTruthy val = false) :
    get_env_or_raise val name = .error (.configError name) := by
  cases val with
  | none => rfl
  | some v =>
    simp [pyTruthy] at h
    simp [get_env_or_raise, h]

/-- Helper: a set, nonempty env var makes `get_env_or_raise` succeed. -/
theorem get_env_or_raise_of_ready (val : Option String) (name : String)
    (h : pyTruthy val = true) :
    get_env_or_raise val name = .ok (val.getD "") := by
  cases val with
  | none => simp [pyTruthy] at h
  | some v =>
    simp [pyTruthy] at h
    simp [get_env_or_raise, h]

/-- Helper: `get_env_or_raise` only ever raises the config error for its
own variable name. -/
theorem get_env_or_raise_error_eq (val : Option String) (name : String)
    (e : TokenError) (h : get_env_or_raise val name = .error e) :
    e = .configError name := by
  cases val with
  | none => simp [get_env_or_raise] at h; exact h.symm
  | some v =>
    by_cases hv : v = ""
    · simp [get_env_or_raise, hv] at h
      exact h.symm
    · simp [get_env_or_raise, hv] at h

/-- Helper: with all required env vars present, the issuance tier performs
one HTTP POST and on a 2xx body yields the token with expiry
`now + TOKEN_CACHE_SECONDS - TOKEN_EXPIRY_BUFFER`. -/
theorem fetch_ready_success (env : Env) (tok : String) (now : Int)
    (h : envReady env = true) :
    _fetch_new_token_from_auth0 env (.success tok) now =
      (.ok (tok, now + TOKEN_CACHE_SECONDS - TOKEN_EXPIRY_BUFFER), 1) := by
  simp only [envReady, Bool.and_eq_true] at h
  obtain ⟨⟨h1, h2⟩, h3⟩ := h
  simp only [_fetch_new_token_from_auth0,
    get_env_or_raise_of_ready _ _ h1, get_env_or_raise_of_ready _ _ h2,
    get_env_or_raise_of_ready _ _ h3]

/-- Helper: with all required env vars present, a failing HTTP POST makes
the issuance tier raise the issuance error (after one POST). -/
theorem fetch_ready_failure (env : Env) (now : Int)
    (h : envReady env = true) :
    _fetch_new_token_from_auth0 env .failure now =
      (.error .issuanceError, 1) := by
  simp only [envReady, Bool.and_eq_true] at h
  obtain ⟨⟨h1, h2⟩, h3⟩ := h
  simp only [_fetch_new_token_from_auth0,
    get_env_or_raise_of_ready _ _ h1, get_env_or_raise_of_ready _ _ h2,
    get_env_or_raise_of_ready _ _ h3]

/-- Helper: with some required env var absent, the issuance tier raises a
config error before performing any HTTP POST. -/
theorem fetch_config_missing (env : Env) (f : FetchOutcome) (now : Int)
    (h : envReady env = false) :
    ∃ name, _fetch_new_token_from_auth0 env f now =
      (.error (.configError name), 0) := by
  cases h1 : pyTruthy env.AUTH0_DOMAIN with
  | false =>
    exact ⟨"AUTH0_DOMAIN", by
      simp only [_fetch_new_token_from_auth0,
        get_env_or_raise_of_missing _ _ h1]⟩
  | true =>
    cases h2 : pyTruthy env.AUTH0_CLIENT_ID with
    | false =>
      exact ⟨"AUTH0_CLIENT_ID", by
        simp only [_fetch_new_token_from_auth0,
          get_env_or_raise_of_ready _ _ h1,
          get_env_or_raise_of_missing _ _ h2]⟩
    | true =>
      cases h3 : pyTruthy env.AUTH0_CLIENT_SECRET with
      | false =>
        exact ⟨"AUTH0_CLIENT_SECRET", by
          simp only [_fetch_new_token_from_auth0,
            get_env_or_raise_of_ready _ _ h1,
            get_env_or_raise_of_ready _ _ h2,
            get_env_or_raise_of_missing _ _ h3]⟩
      | true => simp [envReady, h1, h2, h3] at h

/-- Helper: the issuance tier never raises the parse error (its failures
are config errors or the issuance error). -/
theorem fetch_not_parse (env : Env) (f : FetchOutcome) (now : Int) :
    (_fetch_new_token_from_auth0 env f now).1 ≠ .error .parseError := by
  unfold _fetch_new_token_from_auth0
  cases hd : get_env_or_raise env.AUTH0_DOMAIN "AUTH0_DOMAIN" with
  | error e1 =>
    have he := get_env_or_raise_error_eq _ _ _ hd
    subst he; simp
  | ok v1 =>
    cases hc : get_env_or_raise env.AUTH0_CLIENT_ID "AUTH0_CLIENT_ID" with
    | error e2 =>
      have he := get_env_or_raise_error_eq _ _ _ hc
      subst he; simp
    | ok v2 =>
      cases hs : get_env_or_raise env.AUTH0_CLIENT_SECRET "AUTH0_CLIENT_SECRET" with
      | error e3 =>
        have he := get_env_or_raise_error_eq _ _ _ hs
        subst he; simp
      | ok v3 => cases f <;> simp

/-- Helper: a successful issuance result always carries the computed
expiry, comes from a 2xx response, and made exactly one HTTP POST. -/
theorem fetch_ok_shape (env : Env) (f : FetchOutcome) (now : Int)
    (t : String) (e : Int) (n : Nat)
    (h : _fetch_new_token_from_auth0 env f now = (.ok (t, e), n)) :
    e = now + TOKEN_CACHE_SECONDS - TOKEN_EXPIRY_BUFFER ∧
      f = .success t ∧ n = 1 := by
  unfold _fetch_new_token_from_auth0 at h
  cases hd : get_env_or_raise env.AUTH0_DOMAIN "AUTH0_DOMAIN" with
  | error e1 => rw [hd] at h; simp at h
  | ok v1 =>
    rw [hd] at h
    cases hc : get_env_or_raise env.AUTH0_CLIENT_ID "AUTH0_CLIENT_ID" with
    | error e2 => rw [hc] at h; simp at h
    | ok v2 =>
      rw [hc] at h
      cases hs : get_env_or_raise env.AUTH0_CLIENT_SECRET "AUTH0_CLIENT_SECRET" with
      | error e3 => rw [hs] at h; simp at h
      | ok v3 =>
        rw [hs] at h
        cases f with
        | failure => simp at h
        | success tok =>
          simp at h
          obtain ⟨⟨ht, he⟩, hn⟩ := h
          exact ⟨he.symm, by rw [ht], hn.symm⟩

/-- Helper: when the Parameter Store key is absent or `get_parameter`
raises a non-not-found `ClientError`, the tier-2 read yields `None`. -/
theorem load_miss (content : Option StoredValue) (rf : Bool) (now : Int)
    (h : content = none ∨ rf = true) :
    _load_token_from_parameter_store content rf now = .ok none := by
  rcases h with h | h
  · subst h
    unfold _load_token_from_parameter_store
    cases rf <;> simp
  · subst h
    simp [_load_token_from_parameter_store]

/-- Helper: an adopted tier-2 value has a nonempty token and an expiry
strictly beyond `now + TOKEN_EXPIRY_BUFFER`. -/
theorem load_some_shape (content : Option StoredValue) (rf : Bool)
    (now : Int) (tok : String) (e : Int)
    (h : _load_token_from_parameter_store content rf now
      = .ok (some (tok, e))) :
    tok ≠ "" ∧ e > now + TOKEN_EXPIRY_BUFFER := by
  unfold _load_token_from_parameter_store at h
  split at h
  · simp at h
  · cases content with
    | none => simp at h
    | some v =>
      cases v with
      | malformed => simp at h
      | wellFormed token expiry =>
        simp only at h
        split at h
        · next hcond =>
          simp at h
          obtain ⟨ht, he⟩ := h
          obtain ⟨hp, hgt⟩ := hcond
          cases token with
          | none => simp [pyTruthy] at hp
          | some s =>
            simp [pyTruthy] at hp
            simp at ht
            constructor
            · rw [← ht]; exact hp
            · rw [← he]; exact hgt
        · simp at h

/-- Helper: the tier-2 write never raises and leaves the memory globals
and counters other than `writeCount` untouched. -/
theorem save_fields (st : CacheState) (token : String) (expiry : Int)
    (w : Bool) :
    (_save_token_to_parameter_store st token expiry w).memToken = st.memToken ∧
    (_save_token_to_parameter_store st token expiry w).memExpiry = st.memExpiry ∧
    (_save_token_to_parameter_store st token expiry w).fetchCount = st.fetchCount ∧
    (_save_token_to_parameter_store st token expiry w).readCount = st.readCount := by
  unfold _save_token_to_parameter_store
  cases w <;> simp

/-- Helper: the serving condition of tier 1 — a truthy global token whose
expiry exceeds `now + TOKEN_EXPIRY_BUFFER` — makes `get_auth0_mgmt_token`
return it with no state change. -/
theorem getToken_memory_hit (st : CacheState) (now : Int) (env : Env)
    (rf : Bool) (f : FetchOutcome) (w : Bool)
    (h : pyTruthy st.memToken = true ∧
      st.memExpiry > now + TOKEN_EXPIRY_BUFFER) :
    get_auth0_mgmt_token st now env rf f w =
      (.ok (st.memToken.getD ""), st) := by
  unfold get_auth0_mgmt_token
  rw [if_pos h]

/-- Helper: whenever tier 1 misses, exactly one Parameter Store read is
performed, whatever happens afterwards. -/
theorem getToken_miss_readCount (st : CacheState) (now : Int) (env : Env)
    (rf : Bool) (f : FetchOutcome) (w : Bool)
    (h : ¬(pyTruthy st.memToken = true ∧
      st.memExpiry > now + TOKEN_EXPIRY_BUFFER)) :
    (get_auth0_mgmt_token st now env rf f w).2.readCount
      = st.readCount + 1 := by
  unfold get_auth0_mgmt_token
  rw [if_neg h]
  cases hl : _load_token_from_parameter_store st.store rf now with
  | error e => simp
  | ok o =>
    cases o with
    | none =>
      simp only
      cases hf : _fetch_new_token_from_auth0 env f now with
      | mk r n =>
        cases r with
        | error e => simp
        | ok p =>
          obtain ⟨token, expiry⟩ := p
          simp [(save_fields _ token expiry w).2.2.2]
    | some p =>
      obtain ⟨token, expiry⟩ := p
      simp

/-- Helper: tier-1 miss plus tier-2 miss plus a 2xx issuance response is
the full issuance path: fresh token returned, memory updated, one read,
one POST, one write attempt. -/
theorem getToken_full_miss_success (st : CacheState) (now : Int)
    (env : Env) (rf : Bool) (tok : String) (w : Bool)
    (hmem : ¬(pyTruthy st.memToken = true ∧
      st.memExpiry > now + TOKEN_EXPIRY_BUFFER))
    (hread : st.store = none ∨ rf = true)
    (henv : envReady env = true) :
    get_auth0_mgmt_token st now env rf (.success tok) w =
      (.ok tok,
       _save_token_to_parameter_store
         { st with memToken := some tok,
                   memExpiry := now + TOKEN_CACHE_SECONDS - TOKEN_EXPIRY_BUFFER,
                   readCount := st.readCount + 1,
                   fetchCount := st.fetchCount + 1 }
         tok (now + TOKEN_CACHE_SECONDS - TOKEN_EXPIRY_BUFFER) w) := by
  unfold get_auth0_mgmt_token
  rw [if_neg hmem]
  simp only [load_miss st.store rf now hread,
    fetch_ready_success env tok now henv]

/-- Helper: tier-1 miss plus tier-2 miss plus a failing issuance POST
raises the issuance error after one read and one POST. -/
theorem getToken_full_miss_failure (st : CacheState) (now : Int)
    (env : Env) (rf : Bool) (w : Bool)
    (hmem : ¬(pyTruthy st.memToken = true ∧
      st.memExpiry > now + TOKEN_EXPIRY_BUFFER))
    (hread : st.store = none ∨ rf = true)
    (henv : envReady env = true) :
    get_auth0_mgmt_token st now env rf .failure w =
      (.error .issuanceError,
       { st with readCount := st.readCount + 1,
                 fetchCount := st.fetchCount + 1 }) := by
  unfold get_auth0_mgmt_token
  rw [if_neg hmem]
  simp only [load_miss st.store rf now hread, fetch_ready_failure env now henv]

/-- Helper: tier-1 miss plus tier-2 miss with some required env var absent
raises a config error after the read, with no HTTP POST performed. -/
theorem getToken_full_miss_noconfig (st : CacheState) (now : Int)
    (env : Env) (rf : Bool) (f : FetchOutcome) (w : Bool)
    (henv : envReady env = false)
    (hmem : ¬(pyTruthy st.memToken = true ∧
      st.memExpiry > now + TOKEN_EXPIRY_BUFFER))
    (hread : st.store = none ∨ rf = true) :
    ∃ name, get_auth0_mgmt_token st now env rf f w =
      (.error (.configError name),
       { st with readCount := st.readCount + 1 }) := by
  obtain ⟨name, hfe⟩ := fetch_config_missing env f now henv
  refine ⟨name, ?_⟩
  unfold get_auth0_mgmt_token
  rw [if_neg hmem]
  simp only [load_miss st.store rf now hread, hfe]
  simp

/-- Helper: a successful call leaves in the memory globals exactly the
returned token, with an expiry beyond `now + TOKEN_EXPIRY_BUFFER`. -/
theorem getToken_ok_memory (st st' : CacheState) (now : Int) (env : Env)
    (rf : Bool) (f : FetchOutcome) (w : Bool) (tok : String)
    (h : get_auth0_mgmt_token st now env rf f w = (.ok tok, st')) :
    st'.memToken = some tok ∧
      st'.memExpiry > now + TOKEN_EXPIRY_BUFFER := by
  unfold get_auth0_mgmt_token at h
  by_cases hm : pyTruthy st.memToken = true ∧
      st.memExpiry > now + TOKEN_EXPIRY_BUFFER
  · rw [if_pos hm] at h
    simp at h
    obtain ⟨ht, hst⟩ := h
    obtain ⟨hp, he⟩ := hm
    cases hmt : st.memToken with
    | none => rw [hmt] at hp; simp [pyTruthy] at hp
    | some s =>
      subst hst
      rw [hmt] at ht
      simp at ht
      exact ⟨by rw [hmt, ht], he⟩
  · rw [if_neg hm] at h
    cases hl : _load_token_from_parameter_store st.store rf now with
    | error e => rw [hl] at h; simp at h
    | ok o =>
      rw [hl] at h
      cases o with
      | some p =>
        obtain ⟨token, expiry⟩ := p
        simp at h
        obtain ⟨ht, hst⟩ := h
        have hsh := load_some_shape st.store rf now token expiry hl
        subst ht
        rw [← hst]
        exact ⟨rfl, hsh.2⟩
      | none =>
        simp only at h
        cases hf : _fetch_new_token_from_auth0 env f now with
        | mk r n =>
          rw [hf] at h
          cases r with
          | error e => simp at h
          | ok p =>
            obtain ⟨token, expiry⟩ := p
            simp at h
            obtain ⟨ht, hst⟩ := h
            have hsh := fetch_ok_shape env f now token expiry n hf
            constructor
            · rw [← hst, ← ht, (save_fields _ token expiry w).1]
            · rw [← hst, (save_fields _ token expiry w).2.1]
              show expiry > now + TOKEN_EXPIRY_BUFFER
              rw [hsh.1]
              simp only [TOKEN_CACHE_SECONDS, TOKEN_EXPIRY_BUFFER]
              omega

/-- Claim C1 (counterexample): the claim's memory-tier criterion
`now < expires_at` and its concrete instance (buffer 60 s, so
`expires_at = 86340` for issuance at `t = 0`) do not match the code. With
the memory tier holding (`"tok"`, 86340) a call at `now = 86339` — where
`now < expires_at` holds — does not return the cached `"tok"`: the code's
guard `expires_at > now + TOKEN_EXPIRY_BUFFER` (buffer 300) fails, so the
call refetches and returns the fresh token. Moreover issuance at `t = 0`
records expiry 86100, not 86340. -/
theorem C1_counterexample :
    get_auth0_mgmt_token ⟨some "tok", 86340, none, 0, 0, 0⟩ 86339 envAll
        false (.success "fresh") true
      = (.ok "fresh",
         ⟨some "fresh", 172439,
          some (.wellFormed (some "fresh") (some 172439)), 1, 1, 1⟩) ∧
    (86339 : Int) < 86340 ∧ ("fresh" : String) ≠ "tok" ∧
    _fetch_new_token_from_auth0 envAll (.success "tok") 0
      = (.ok ("tok", 86100), 1) ∧ (86100 : Int) ≠ 86340 := by
  refine ⟨rfl, by omega, by decide, rfl, by omega⟩

/-- Claim C1 (amended): a token issued at time `t` records expiry
`t + TOKEN_CACHE_SECONDS - TOKEN_EXPIRY_BUFFER` (lifetime 86400 s, buffer
300 s, so `t + 86100`), and `get_auth0_mgmt_token` returns the memory-held
token with no I/O (state unchanged) iff the held token is nonempty and
`expires_at > now + TOKEN_EXPIRY_BUFFER` — not iff `now < expires_at`. -/
theorem C1_memory_serve_condition (st : CacheState) (now : Int)
    (env : Env) (rf : Bool) (f : FetchOutcome) (w : Bool) :
    (get_auth0_mgmt_token st now env rf f w
        = (.ok (st.memToken.getD ""), st) ↔
      pyTruthy st.memToken = true ∧
        st.memExpiry > now + TOKEN_EXPIRY_BUFFER) ∧
    (∀ (tok : String) (t : Int), envReady env = true →
      _fetch_new_token_from_auth0 env (.success tok) t =
        (.ok (tok, t + TOKEN_CACHE_SECONDS - TOKEN_EXPIRY_BUFFER), 1)) := by
  constructor
  · constructor
    · intro h
      by_cases hm : pyTruthy st.memToken = true ∧
          st.memExpiry > now + TOKEN_EXPIRY_BUFFER
      · exact hm
      · exfalso
        have hr := getToken_miss_readCount st now env rf f w hm
        rw [h] at hr
        simp at hr
    · intro hm
      exact getToken_memory_hit st now env rf f w hm
  · intro tok t henv
    exact fetch_ready_success env tok t henv

/-- Claim C1 witness: with memory (`"tok"`, expiry 86100 as recorded by an
issuance at `t = 0`), a call at `now = 85799` (the last instant satisfying
`86100 > now + 300`) serves from memory with no state change. -/
theorem C1_witness :
    get_auth0_mgmt_token ⟨some "tok", 86100, none, 3, 4, 5⟩ 85799 envAll
        false .failure true
      = (.ok "tok", ⟨some "tok", 86100, none, 3, 4, 5⟩) ∧
    _fetch_new_token_from_auth0 envAll (.success "tok") 0
      = (.ok ("tok", 86100), 1) :=
  ⟨((C1_memory_serve_condition ⟨some "tok", 86100, none, 3, 4, 5⟩ 85799
      envAll false .failure true).1).mpr (by decide),
   (C1_memory_serve_condition ⟨some "tok", 86100, none, 3, 4, 5⟩ 0
      envAll false .failure true).2 "tok" 0 (by decide)⟩

/-- Claim C2: from empty memory and durable tiers, with configuration
present, a 2xx issuance response and a working store write,
`get_auth0_mgmt_token` performs exactly one issuance call
(`fetchCount + 1`) and afterwards both the memory tier and the durable
tier hold the fresh token with its computed expiry. -/
theorem C2_issuance_on_full_miss (st : CacheState) (now : Int) (env : Env)
    (tok : String)
    (hmem : st.memToken = none) (hstore : st.store = none)
    (henv : envReady env = true) :
    get_auth0_mgmt_token st now env false (.success tok) true =
      (.ok tok,
       { memToken := some tok,
         memExpiry := now + TOKEN_CACHE_SECONDS - TOKEN_EXPIRY_BUFFER,
         store := some (.wellFormed (some tok)
           (some (now + TOKEN_CACHE_SECONDS - TOKEN_EXPIRY_BUFFER))),
         fetchCount := st.fetchCount + 1,
         readCount := st.readCount + 1,
         writeCount := st.writeCount + 1 }) := by
  have hm : ¬(pyTruthy st.memToken = true ∧
      st.memExpiry > now + TOKEN_EXPIRY_BUFFER) := by
    rw [hmem]; simp [pyTruthy]
  rw [getToken_full_miss_success st now env false tok true hm
    (Or.inl hstore) henv]
  simp [_save_token_to_parameter_store]

/-- Claim C2 witness: the full-miss issuance path at `now = 100` with
token `"new"`: one POST, memory and store both populated with
(`"new"`, 86200). -/
theorem C2_witness :
    get_auth0_mgmt_token ⟨none, 0, none, 0, 0, 0⟩ 100 envAll false
        (.success "new") true
      = (.ok "new",
         ⟨some "new", 86200,
          some (.wellFormed (some "new") (some 86200)), 1, 1, 1⟩) :=
  C2_issuance_on_full_miss ⟨none, 0, none, 0, 0, 0⟩ 100 envAll "new"
    rfl rfl (by decide)

/-- Claim C3: with an empty memory tier and a durable-store entry holding
a nonempty token with `expiry = now + 3600`, `get_auth0_mgmt_token`
returns the durable-store token without any issuance call (`fetchCount`
unchanged, issuance oracle irrelevant) and adopts the token with its
stored expiry as the new memory-tier value. -/
theorem C3_durable_fallback (st : CacheState) (now : Int) (env : Env)
    (f : FetchOutcome) (w : Bool) (tok : String)
    (hmem : st.memToken = none)
    (hstore : st.store = some (.wellFormed (some tok) (some (now + 3600))))
    (htok : tok ≠ "") :
    get_auth0_mgmt_token st now env false f w =
      (.ok tok, { st with memToken := some tok, memExpiry := now + 3600,
                          readCount := st.readCount + 1 }) := by
  have hm : ¬(pyTruthy st.memToken = true ∧
      st.memExpiry > now + TOKEN_EXPIRY_BUFFER) := by
    rw [hmem]; simp [pyTruthy]
  have hgt : now + 3600 > now + TOKEN_EXPIRY_BUFFER := by
    simp only [TOKEN_EXPIRY_BUFFER]; omega
  unfold get_auth0_mgmt_token
  rw [if_neg hm]
  simp [_load_token_from_parameter_store, hstore, pyTruthy, htok, hgt]

/-- Claim C3 witness: durable entry (`"dur"`, `100 + 3600`) with empty
memory at `now = 100`: the durable token is returned and adopted, with no
issuance call even though the issuance oracle would fail. -/
theorem C3_witness :
    get_auth0_mgmt_token
        ⟨none, 0, some (.wellFormed (some "dur") (some 3700)), 0, 0, 0⟩
        100 envAll false .failure true
      = (.ok "dur",
         ⟨some "dur", 3700,
          some (.wellFormed (some "dur") (some 3700)), 0, 1, 0⟩) :=
  C3_durable_fallback
    ⟨none, 0, some (.wellFormed (some "dur") (some 3700)), 0, 0, 0⟩
    100 envAll .failure true "dur" rfl rfl (by decide)

/-- Claim C4 (counterexample): a malformed durable-store value IS
propagated to the caller. With empty memory and a malformed blob at the
key, `get_auth0_mgmt_token` raises the parse error instead of falling
through to issuance — even though issuance would have succeeded with
`"fresh"` — and performs no issuance call (`fetchCount` stays 0). -/
theorem C4_counterexample :
    get_auth0_mgmt_token ⟨none, 0, some .malformed, 0, 0, 0⟩ 0 envAll
        false (.success "fresh") true
      = (.error .parseError, ⟨none, 0, some .malformed, 0, 1, 0⟩) := by
  rfl

/-- Claim C4 (amended): for a durable-tier read failure signalled by the
store client — the key absent or any other `ClientError` (denied,
transient) — no error crosses `get_auth0_mgmt_token`: the result is never
the parse error and any failure of the call is exactly a failure of the
issuance tier. A malformed stored value is excluded: it propagates. -/
theorem C4_read_failure_fallthrough (st : CacheState) (now : Int)
    (env : Env) (rf : Bool) (f : FetchOutcome) (w : Bool)
    (hread : st.store = none ∨ rf = true) :
    (get_auth0_mgmt_token st now env rf f w).1 ≠ .error .parseError ∧
    (∀ e, (get_auth0_mgmt_token st now env rf f w).1 = .error e →
      (_fetch_new_token_from_auth0 env f now).1 = .error e) := by
  by_cases hm : pyTruthy st.memToken = true ∧
      st.memExpiry > now + TOKEN_EXPIRY_BUFFER
  · rw [getToken_memory_hit st now env rf f w hm]
    exact ⟨by simp, fun e he => by simp at he⟩
  · have hg : get_auth0_mgmt_token st now env rf f w =
        (match _fetch_new_token_from_auth0 env f now with
         | (.error e, n) =>
           ((.error e : Except TokenError String),
            { st with readCount := st.readCount + 1,
                      fetchCount := st.fetchCount + n })
         | (.ok (token, expiry), n) =>
           (.ok token,
            _save_token_to_parameter_store
              { st with memToken := some token, memExpiry := expiry,
                        readCount := st.readCount + 1,
                        fetchCount := st.fetchCount + n }
              token expiry w)) := by
      unfold get_auth0_mgmt_token
      rw [if_neg hm]
      simp only [load_miss st.store rf now hread]
    cases hf : _fetch_new_token_from_auth0 env f now with
    | mk r n =>
      cases r with
      | error e =>
        rw [hg, hf]
        constructor
        · intro hc
          simp at hc
          have := fetch_not_parse env f now
          rw [hf, hc] at this
          exact this rfl
        · intro e2 he2
          simp at he2
          simp [he2]
      | ok p =>
        obtain ⟨token, expiry⟩ := p
        rw [hg, hf]
        exact ⟨by simp, fun e he => by simp at he⟩

/-- Claim C4 witness: empty store at `now = 7`, failing issuance: the
call's failure is the issuance tier's failure, not a durable-tier error. -/
theorem C4_witness :
    (get_auth0_mgmt_token ⟨none, 0, none, 0, 0, 0⟩ 7 envAll false
        .failure true).1 ≠ .error .parseError :=
  (C4_read_failure_fallthrough ⟨none, 0, none, 0, 0, 0⟩ 7 envAll false
    .failure true (Or.inl rfl)).1

/-- Claim C5: when the tiers fall through to issuance, the POST returns a
2xx token, and the subsequent Parameter Store write fails
(`writeOk = false`, a swallowed `ClientError`), the call still returns the
fresh token, the memory tier is still populated with it, and the store is
left unchanged — only the write was attempted (`writeCount + 1`). -/
theorem C5_write_failure_tolerance (st : CacheState) (now : Int)
    (env : Env) (rf : Bool) (tok : String)
    (hmem : ¬(pyTruthy st.memToken = true ∧
      st.memExpiry > now + TOKEN_EXPIRY_BUFFER))
    (hread : st.store = none ∨ rf = true)
    (henv : envReady env = true) :
    get_auth0_mgmt_token st now env rf (.success tok) false =
      (.ok tok,
       { st with memToken := some tok,
                 memExpiry := now + TOKEN_CACHE_SECONDS - TOKEN_EXPIRY_BUFFER,
                 readCount := st.readCount + 1,
                 fetchCount := st.fetchCount + 1,
                 writeCount := st.writeCount + 1 }) := by
  rw [getToken_full_miss_success st now env rf tok false hmem hread henv]
  simp [_save_token_to_parameter_store]

/-- Claim C5 witness: full miss at `now = 50`, issuance yields `"tok5"`,
the write fails; the token is still returned, memory holds it, the store
stays empty. -/
theorem C5_witness :
    get_auth0_mgmt_token ⟨none, 0, none, 0, 0, 0⟩ 50 envAll false
        (.success "tok5") false
      = (.ok "tok5", ⟨some "tok5", 86150, none, 1, 1, 1⟩) :=
  C5_write_failure_tolerance ⟨none, 0, none, 0, 0, 0⟩ 50 envAll false
    "tok5" (by decide) (Or.inl rfl) (by decide)

/-- Claim C6 (counterexample): missing configuration does NOT fail before
the tiers are tried. With all required env vars unset but a valid
memory-tier token, the call succeeds outright; and on a full miss the
config error is raised only after the durable-store read was performed
(`readCount` becomes 1). -/
theorem C6_counterexample :
    get_auth0_mgmt_token ⟨some "tok", 1000, none, 0, 0, 0⟩ 0 envEmpty
        false .failure true
      = (.ok "tok", ⟨some "tok", 1000, none, 0, 0, 0⟩) ∧
    get_auth0_mgmt_token ⟨none, 0, none, 0, 0, 0⟩ 5 envEmpty false
        (.success "t") true
      = (.error (.configError "AUTH0_DOMAIN"), ⟨none, 0, none, 0, 1, 0⟩) := by
  exact ⟨rfl, rfl⟩

/-- Claim C6 (amended): a missing required configuration value raises its
`RuntimeError` only when the issuance tier is reached: after the memory
check fails and the durable-store read has been performed (`readCount`
increments), the call errors with a config error, with no HTTP POST
(`fetchCount` unchanged); a call served from a cache tier raises no
configuration error at all. -/
theorem C6_config_error_at_issuance_tier (st : CacheState) (now : Int)
    (env : Env) (rf : Bool) (f : FetchOutcome) (w : Bool)
    (henv : envReady env = false)
    (hmem : ¬(pyTruthy st.memToken = true ∧
      st.memExpiry > now + TOKEN_EXPIRY_BUFFER))
    (hread : st.store = none ∨ rf = true) :
    ∃ name, get_auth0_mgmt_token st now env rf f w =
      (.error (.configError name),
       { st with readCount := st.readCount + 1 }) :=
  getToken_full_miss_noconfig st now env rf f w henv hmem hread

/-- Claim C6 witness: empty env, full miss at `now = 5`: some config error
is raised with the read already counted and no POST performed. -/
theorem C6_witness :
    ∃ name, get_auth0_mgmt_token ⟨none, 0, none, 0, 0, 0⟩ 5 envEmpty
        false (.success "t") true
      = (.error (.configError name), ⟨none, 0, none, 0, 1, 0⟩) :=
  C6_config_error_at_issuance_tier ⟨none, 0, none, 0, 0, 0⟩ 5 envEmpty
    false (.success "t") true (by decide) (by decide) (Or.inl rfl)

/-- Claim C7 (counterexample): issuance failure is NOT the only way
`get_auth0_mgmt_token` can fail. With a stale empty memory token and a
malformed durable value, the call fails with the parse error — distinct
from the issuance error — while the issuance tier, which would have
succeeded, is never called (`fetchCount` stays 2). -/
theorem C7_counterexample :
    get_auth0_mgmt_token ⟨some "", 999999, some .malformed, 2, 3, 4⟩ 100
        envAll false (.success "fresh") true
      = (.error .parseError,
         ⟨some "", 999999, some .malformed, 2, 4, 4⟩) ∧
    TokenError.parseError ≠ TokenError.issuanceError := by
  exact ⟨rfl, by decide⟩

/-- Claim C7 (amended): when the tiers fall through to issuance with the
configuration present and the POST fails (network error, non-2xx status,
or missing `access_token`), the call fails with the distinct issuance
error; but this is not the only failure mode of `get_auth0_mgmt_token`
(config errors and durable parse errors also escape). -/
theorem C7_issuance_failure_propagates (st : CacheState) (now : Int)
    (env : Env) (rf : Bool) (w : Bool)
    (hmem : ¬(pyTruthy st.memToken = true ∧
      st.memExpiry > now + TOKEN_EXPIRY_BUFFER))
    (hread : st.store = none ∨ rf = true)
    (henv : envReady env = true) :
    get_auth0_mgmt_token st now env rf .failure w =
      (.error .issuanceError,
       { st with readCount := st.readCount + 1,
                 fetchCount := st.fetchCount + 1 }) :=
  getToken_full_miss_failure st now env rf w hmem hread henv

/-- Claim C7 witness: full miss at `now = 9` with a failing POST: the call
raises the issuance error after one read and one POST. -/
theorem C7_witness :
    get_auth0_mgmt_token ⟨none, 0, none, 0, 0, 0⟩ 9 envAll false
        .failure true
      = (.error .issuanceError, ⟨none, 0, none, 1, 1, 0⟩) :=
  C7_issuance_failure_propagates ⟨none, 0, none, 0, 0, 0⟩ 9 envAll false
    true (by decide) (Or.inl rfl) (by decide)

/-- Claim C8: after any successful `get_auth0_mgmt_token` call returning
`tok` (nonempty), a second call while the held expiry still exceeds
`now + TOKEN_EXPIRY_BUFFER` returns the identical token string and leaves
the state unchanged — in particular `fetchCount`, `readCount` and
`writeCount` are untouched, so the second call performs no network or
durable-store I/O, whatever its oracles would have answered. -/
theorem C8_idempotent_hit (st st₁ : CacheState) (now now₂ : Int)
    (env env₂ : Env) (rf rf₂ : Bool) (f f₂ : FetchOutcome) (w w₂ : Bool)
    (tok : String)
    (h1 : get_auth0_mgmt_token st now env rf f w = (.ok tok, st₁))
    (hfresh : st₁.memExpiry > now₂ + TOKEN_EXPIRY_BUFFER)
    (htok : tok ≠ "") :
    get_auth0_mgmt_token st₁ now₂ env₂ rf₂ f₂ w₂ = (.ok tok, st₁) := by
  have hm := getToken_ok_memory st st₁ now env rf f w tok h1
  have hp : pyTruthy st₁.memToken = true := by
    rw [hm.1]; simp [pyTruthy, htok]
  have hhit := getToken_memory_hit st₁ now₂ env₂ rf₂ f₂ w₂ ⟨hp, hfresh⟩
  rw [hhit, hm.1]
  rfl

/-- Claim C8 witness: a first call issues `"new"` at `now = 100`; the
second call at `now = 200` — with every oracle hostile (empty env, read
fault, failing POST) — returns the same `"new"` with the state unchanged. -/
theorem C8_witness :
    get_auth0_mgmt_token
        ⟨some "new", 86200,
         some (.wellFormed (some "new") (some 86200)), 1, 1, 1⟩
        200 envEmpty true .failure false
      = (.ok "new",
         ⟨some "new", 86200,
          some (.wellFormed (some "new") (some 86200)), 1, 1, 1⟩) :=
  C8_idempotent_hit ⟨none, 0, none, 0, 0, 0⟩
    ⟨some "new", 86200, some (.wellFormed (some "new") (some 86200)), 1, 1, 1⟩
    100 200 envAll envEmpty false true (.success "new") .failure true false
    "new" rfl (by decide) (by decide)

/-- Claim C9: after every successful `get_auth0_mgmt_token` call, the
memory tier holds exactly the returned token with the expiry under which
it was served, that expiry strictly exceeds `now + TOKEN_EXPIRY_BUFFER`,
and hence the recorded expiry lies strictly in the future — on every path
(memory hit, durable adoption, fresh issuance). -/
theorem C9_memory_tier_invariant (st st₂ : CacheState) (now : Int)
    (env : Env) (rf : Bool) (f : FetchOutcome) (w : Bool) (tok : String)
    (h : get_auth0_mgmt_token st now env rf f w = (.ok tok, st₂)) :
    st₂.memToken = some tok ∧
    st₂.memExpiry > now + TOKEN_EXPIRY_BUFFER ∧
    st₂.memExpiry > now := by
  have hm := getToken_ok_memory st st₂ now env rf f w tok h
  refine ⟨hm.1, hm.2, ?_⟩
  have h2 := hm.2
  have hb : TOKEN_EXPIRY_BUFFER = 300 := rfl
  omega

/-- Claim C9 witness: the fresh-issuance path at `now = 100` leaves memory
holding exactly the returned `"new"` with expiry 86200, beyond both
`now + TOKEN_EXPIRY_BUFFER` and `now`. -/
theorem C9_witness :
    (⟨some "new", 86200,
      some (.wellFormed (some "new") (some 86200)), 1, 1, 1⟩
        : CacheState).memToken = some "new" ∧
    (⟨some "new", 86200,
      some (.wellFormed (some "new") (some 86200)), 1, 1, 1⟩
        : CacheState).memExpiry > 100 + TOKEN_EXPIRY_BUFFER ∧
    (⟨some "new", 86200,
      some (.wellFormed (some "new") (some 86200)), 1, 1, 1⟩
        : CacheState).memExpiry > 100 :=
  C9_memory_tier_invariant ⟨none, 0, none, 0, 0, 0⟩
    ⟨some "new", 86200, some (.wellFormed (some "new") (some 86200)), 1, 1, 1⟩
    100 envAll false (.success "new") true "new" rfl

/-- Claim C10: the empty token string is a miss at both cache tiers.
First, a token served without an issuance call (`fetchCount` unchanged,
i.e. served from the memory or durable tier) is never `""`. Second, a
memory tier holding `some ""` always falls through to a durable-store
read, regardless of its recorded expiry. Third, a durable blob whose
token field is `""` or missing is rejected by the tier-2 read, regardless
of its expiry. -/
theorem C10_empty_token_is_miss :
    (∀ (st st₂ : CacheState) (now : Int) (env : Env) (rf : Bool)
       (f : FetchOutcome) (w : Bool) (tok : String),
       get_auth0_mgmt_token st now env rf f w = (.ok tok, st₂) →
       st₂.fetchCount = st.fetchCount → tok ≠ "") ∧
    (∀ (st : CacheState) (now : Int) (env : Env) (rf : Bool)
       (f : FetchOutcome) (w : Bool), st.memToken = some "" →
       (get_auth0_mgmt_token st now env rf f w).2.readCount
         = st.readCount + 1) ∧
    (∀ (rf : Bool) (now : Int) (exp : Option Int),
       _load_token_from_parameter_store
         (some (.wellFormed (some "") exp)) rf now = .ok none ∧
       _load_token_from_parameter_store
         (some (.wellFormed none exp)) rf now = .ok none) := by
  refine ⟨?_, ?_, ?_⟩
  · intro st st₂ now env rf f w tok h hfc
    unfold get_auth0_mgmt_token at h
    by_cases hm : pyTruthy st.memToken = true ∧
        st.memExpiry > now + TOKEN_EXPIRY_BUFFER
    · rw [if_pos hm] at h
      simp at h
      obtain ⟨ht, -⟩ := h
      obtain ⟨hp, -⟩ := hm
      cases hmt : st.memToken with
      | none => rw [hmt] at hp; simp [pyTruthy] at hp
      | some s =>
        rw [hmt] at hp ht
        simp [pyTruthy] at hp
        simp at ht
        rw [← ht]; exact hp
    · rw [if_neg hm] at h
      cases hl : _load_token_from_parameter_store st.store rf now with
      | error e => rw [hl] at h; simp at h
      | ok o =>
        rw [hl] at h
        cases o with
        | some p =>
          obtain ⟨token, expiry⟩ := p
          simp at h
          obtain ⟨ht, -⟩ := h
          have hsh := load_some_shape st.store rf now token expiry hl
          rw [← ht]; exact hsh.1
        | none =>
          simp only at h
          cases hf : _fetch_new_token_from_auth0 env f now with
          | mk r n =>
            rw [hf] at h
            cases r with
            | error e => simp at h
            | ok p =>
              obtain ⟨token, expiry⟩ := p
              simp at h
              obtain ⟨-, hst⟩ := h
              have hsh := fetch_ok_shape env f now token expiry n hf
              exfalso
              have hfc2 : st₂.fetchCount = st.fetchCount + n := by
                rw [← hst, (save_fields _ token expiry w).2.2.1]
              rw [hsh.2.2] at hfc2
              omega
  · intro st now env rf f w hmt
    apply getToken_miss_readCount
    rw [hmt]
    simp [pyTruthy]
  · intro rf now exp
    constructor <;> cases rf <;> simp [_load_token_from_parameter_store, pyTruthy]

/-- Claim C10 witness: a durable-tier hit serves the nonempty `"dur"`; a
memory tier holding `""` with a far-future expiry still triggers the
durable read; a stored blob with an empty token is rejected. -/
theorem C10_witness :
    ("dur" : String) ≠ "" ∧
    (get_auth0_mgmt_token ⟨some "", 999, none, 0, 0, 0⟩ 0 envAll false
        .failure true).2.readCount = 0 + 1 ∧
    _load_token_from_parameter_store
      (some (.wellFormed (some "") (some 999999))) false 0 = .ok none :=
  ⟨C10_empty_token_is_miss.1
     ⟨none, 0, some (.wellFormed (some "dur") (some 3700)), 0, 0, 0⟩
     ⟨some "dur", 3700, some (.wellFormed (some "dur") (some 3700)), 0, 1, 0⟩
     100 envAll false .failure true "dur" rfl rfl,
   C10_empty_token_is_miss.2.1 ⟨some "", 999, none, 0, 0, 0⟩ 0 envAll
     false .failure true rfl,
   (C10_empty_token_is_miss.2.2 false 0 (some 999999)).1⟩
